import Mathlib

/-!
Verification of the platformer core of the jai-sandbox repository: the tile
level queries, the Super-Meat-Boy-style player controller with its collision
resolver, the level loader, and the session state machine.

All JavaScript numbers are modelled as rationals (`ℚ`); the arithmetic in the
source is exact on the inputs we consider, so `ℚ` is a faithful carrier.
`Math.random()` and the trigonometric functions used only to seed particle
velocities are abstracted into an environment (`Env`) of opaque rational
streams, threaded through the state exactly at the source's call sites.
-/

namespace Meatboy

/-- World size of one tile (`TILE_SIZE` in level.js). -/
def TILE_SIZE : ℚ := 16

/-- Tile type codes (`TileType` in level.js). -/
def TileType.EMPTY : ℕ := 0

def TileType.SOLID : ℕ := 1

def TileType.PLATFORM : ℕ := 2

/-- Axis-aligned rectangle in world units. -/
structure Rect where
  x : ℚ
  y : ℚ
  width : ℚ
  height : ℚ
  deriving DecidableEq

/-- The `Level` class of level.js: dimensions in tiles, a flat row-major tile
array, hazards, spawn point (world units), goal rectangle and metadata. -/
structure Level where
  width : ℤ
  height : ℤ
  tiles : List ℕ
  hazards : List Rect
  spawnX : ℚ
  spawnY : ℚ
  goalRect : Rect
  name : String
  parTime : ℚ
  backgroundColor : ℚ × ℚ × ℚ
  deriving DecidableEq

/-- `isSolidTile(level, x, y)` of level.js: horizontal out-of-bounds is solid
(invisible walls), `y < 0` is solid (ceiling), `y ≥ height` is not solid (open
bottom); in bounds, the flat array is consulted (`tiles[index] === SOLID`;
a read past the array end is `undefined` in JS, hence not solid, which
`List.getD` with default `0` reproduces). -/
def isSolidTile (level : Level) (x y : ℤ) : Bool :=
  if x < 0 ∨ x ≥ level.width then true
  else if y < 0 then true
  else if y ≥ level.height then false
  else
    let index := y * level.width + x
    level.tiles.getD index.toNat 0 == TileType.SOLID

/-- `getTile(level, x, y)` of level.js: horizontal out-of-bounds returns
`SOLID`, vertical out-of-bounds returns `EMPTY`; in bounds
`tiles[index] || EMPTY` (so both an out-of-array read, `undefined`, and the
value `0` yield `EMPTY`, which `List.getD` with default `0` reproduces). -/
def getTile (level : Level) (x y : ℤ) : ℕ :=
  if x < 0 ∨ x ≥ level.width then TileType.SOLID
  else if y < 0 ∨ y ≥ level.height then TileType.EMPTY
  else
    let index := y * level.width + x
    level.tiles.getD index.toNat 0

/-- The per-frame input intent struct (input.js). -/
structure Input where
  moveX : ℚ
  moveY : ℚ
  jumpPressed : Bool
  jumpHeld : Bool
  pausePressed : Bool
  startPressed : Bool
  deriving DecidableEq

/-! ### Player movement constants (player.js) -/

def MOVE_SPEED : ℚ := 280

def GRAVITY : ℚ := 1200

def FAST_FALL_MULT : ℚ := 3/2

def JUMP_FORCE : ℚ := 420

def JUMP_CUT_MULT : ℚ := 2/5

def MAX_FALL_SPEED : ℚ := 600

def WALL_SLIDE_SPEED : ℚ := 80

def WALL_JUMP_FORCE_X : ℚ := 320

def WALL_JUMP_FORCE_Y : ℚ := 380

def WALL_JUMP_COOLDOWN : ℚ := 3/20

def AIR_CONTROL : ℚ := 9/10

def COYOTE_TIME : ℚ := 2/25

def JUMP_BUFFER_TIME : ℚ := 1/10

def PLAYER_WIDTH : ℚ := 16

def PLAYER_HEIGHT : ℚ := 16

/-- The `Player` class state (player.js). Position is the center of the AABB;
`width`/`height` are full extents. -/
structure Player where
  x : ℚ
  y : ℚ
  width : ℚ
  height : ℚ
  vx : ℚ
  vy : ℚ
  grounded : Bool
  wallSliding : Bool
  wallDirection : ℤ
  facingRight : Bool
  jumpHeld : Bool
  canVariableJump : Bool
  coyoteTimer : ℚ
  jumpBufferTimer : ℚ
  wallJumpCooldown : ℚ
  runTimer : ℚ
  squashStretch : ℚ
  deriving DecidableEq

/-- `Player.reset()` of player.js. -/
def Player.reset : Player :=
  { x := 0, y := 0, width := PLAYER_WIDTH, height := PLAYER_HEIGHT,
    vx := 0, vy := 0,
    grounded := false, wallSliding := false, wallDirection := 0,
    facingRight := true, jumpHeld := false, canVariableJump := false,
    coyoteTimer := 0, jumpBufferTimer := 0, wallJumpCooldown := 0,
    runTimer := 0, squashStretch := 1 }

/-- `Player.lerp(a, b, t)`: linear interpolation with `t` clamped to `[0,1]`. -/
def lerp (a b t : ℚ) : ℚ :=
  let t := max 0 (min 1 t)
  a + (b - a) * t

/-- `Player.updateTimers(dt)`: each countdown timer is decremented by `dt`
only when it is currently positive. -/
def Player.updateTimers (p : Player) (dt : ℚ) : Player :=
  let p := if p.coyoteTimer > 0 then { p with coyoteTimer := p.coyoteTimer - dt } else p
  let p := if p.jumpBufferTimer > 0 then { p with jumpBufferTimer := p.jumpBufferTimer - dt } else p
  if p.wallJumpCooldown > 0 then { p with wallJumpCooldown := p.wallJumpCooldown - dt } else p

/-- `Player.handleHorizontalMovement(input, dt)`. -/
def Player.handleHorizontalMovement (p : Player) (input : Input) (dt : ℚ) : Player :=
  let _ := dt
  let targetVx := input.moveX * MOVE_SPEED
  if p.grounded then { p with vx := targetVx }
  else if ¬ p.wallSliding then
    if input.moveX ≠ 0 then { p with vx := lerp p.vx targetVx AIR_CONTROL } else p
  else p

/-- `Player.checkWallCollision(level, direction)`: single-point sample just
outside the player's side at center height. -/
def Player.checkWallCollision (p : Player) (level : Level) (direction : ℤ) : Bool :=
  let checkX := p.x + (direction : ℚ) * (p.width / 2 + 2)
  let checkY := p.y
  let tileX := ⌊checkX / TILE_SIZE⌋
  let tileY := ⌊checkY / TILE_SIZE⌋
  isSolidTile level tileX tileY

/-- `Player.handleWallDetection(input, level)`. -/
def Player.handleWallDetection (p : Player) (input : Input) (level : Level) : Player :=
  let p := { p with wallSliding := false, wallDirection := 0 }
  if p.wallJumpCooldown > 0 then p
  else if p.grounded then p
  else if p.vy < 0 then p
  else
    let leftWall := p.checkWallCollision level (-1)
    let rightWall := p.checkWallCollision level 1
    if leftWall ∧ input.moveX < -(1/10) then
      { p with wallSliding := true, wallDirection := -1 }
    else if rightWall ∧ input.moveX > 1/10 then
      { p with wallSliding := true, wallDirection := 1 }
    else p

/-- `Player.groundJump()`. -/
def Player.groundJump (p : Player) : Player :=
  { p with vy := -JUMP_FORCE, grounded := false, coyoteTimer := 0,
           canVariableJump := true, squashStretch := 7/10 }

/-- `Player.wallJump()`. -/
def Player.wallJump (p : Player) : Player :=
  { p with vx := -(p.wallDirection : ℚ) * WALL_JUMP_FORCE_X,
           vy := -WALL_JUMP_FORCE_Y,
           wallSliding := false,
           wallJumpCooldown := WALL_JUMP_COOLDOWN,
           canVariableJump := true,
           facingRight := decide (p.wallDirection < 0),
           squashStretch := 7/10 }

/-- `Player.handleJumping(input)`: buffer the press, latch `jumpHeld`, launch
a wall jump or ground jump off the buffer, then apply the variable-jump cut
on release. -/
def Player.handleJumping (p : Player) (input : Input) : Player :=
  let p := if input.jumpPressed then { p with jumpBufferTimer := JUMP_BUFFER_TIME } else p
  let p := { p with jumpHeld := input.jumpHeld }
  let canGroundJump := p.grounded ∨ p.coyoteTimer > 0
  let canWallJump := p.wallSliding
  let wantToJump := p.jumpBufferTimer > 0
  let p :=
    if wantToJump then
      if canWallJump then { p.wallJump with jumpBufferTimer := 0 }
      else if canGroundJump then { p.groundJump with jumpBufferTimer := 0 }
      else p
    else p
  if ¬ p.jumpHeld ∧ p.canVariableJump ∧ p.vy < 0 then
    { p with vy := p.vy * JUMP_CUT_MULT, canVariableJump := false }
  else p

/-- `Player.applyGravity(dt)`: wall-slide clamp / reduced gravity, else normal
gravity with a fast-fall multiplier while falling, then terminal velocity. -/
def Player.applyGravity (p : Player) (dt : ℚ) : Player :=
  let p :=
    if p.wallSliding then
      if p.vy > WALL_SLIDE_SPEED then { p with vy := WALL_SLIDE_SPEED }
      else { p with vy := p.vy + GRAVITY * (3/10) * dt }
    else
      let gravity := if p.vy > 0 then GRAVITY * FAST_FALL_MULT else GRAVITY
      { p with vy := p.vy + gravity * dt }
  if p.vy > MAX_FALL_SPEED then { p with vy := MAX_FALL_SPEED } else p

/-- Integer range `[lo, hi]` inclusive, empty when `hi < lo` (the `for`
loops of `resolveCollisions`). -/
def intRange (lo hi : ℤ) : List ℤ :=
  (List.range (hi + 1 - lo).toNat).map (fun i => lo + i)

/-- The tile cells the player's AABB spans, in the source's scan order
(rows top to bottom, each row left to right); the bounds are computed once
from the player's position before any resolution shift. -/
def Player.scanTiles (p : Player) : List (ℤ × ℤ) :=
  let left := p.x - p.width / 2
  let right := p.x + p.width / 2
  let top := p.y - p.height / 2
  let bottom := p.y + p.height / 2
  let tileLeft := ⌊left / TILE_SIZE⌋
  let tileRight := ⌊right / TILE_SIZE⌋
  let tileTop := ⌊top / TILE_SIZE⌋
  let tileBottom := ⌊bottom / TILE_SIZE⌋
  (intRange tileTop tileBottom).flatMap
    (fun ty => (intRange tileLeft tileRight).map (fun tx => (ty, tx)))

/-- One iteration of the `resolveCollisions` loop body for tile `(ty, tx)`.
`left/right/top/bottom` are the AABB bounds captured before the loop (the
source computes the overlaps from these `const` bounds even after `x`/`y`
have been shifted by earlier iterations). -/
def resolveTileStep (level : Level) (left right top bottom : ℚ)
    (p : Player) (tc : ℤ × ℤ) : Player :=
  let ty := tc.1
  let tx := tc.2
  if ¬ isSolidTile level tx ty then p
  else
    let tileX := (tx : ℚ) * TILE_SIZE
    let tileY := (ty : ℚ) * TILE_SIZE
    let overlapLeft := right - tileX
    let overlapRight := tileX + TILE_SIZE - left
    let overlapTop := bottom - tileY
    let overlapBottom := tileY + TILE_SIZE - top
    let minOverlapX := if overlapLeft < overlapRight then -overlapLeft else overlapRight
    let minOverlapY := if overlapTop < overlapBottom then -overlapTop else overlapBottom
    if |minOverlapX| < |minOverlapY| then
      { p with x := p.x + minOverlapX, vx := 0 }
    else if minOverlapY < 0 then
      { p with y := p.y + minOverlapY, grounded := true, coyoteTimer := COYOTE_TIME, vy := 0 }
    else
      { p with y := p.y + minOverlapY, vy := 0 }

/-- `Player.resolveCollisions(level)`: clear `grounded`, then resolve each
spanned solid tile in scan order. -/
def Player.resolveCollisions (p : Player) (level : Level) : Player :=
  let left := p.x - p.width / 2
  let right := p.x + p.width / 2
  let top := p.y - p.height / 2
  let bottom := p.y + p.height / 2
  p.scanTiles.foldl (resolveTileStep level left right top bottom) { p with grounded := false }

/-- `Player.onLand()`. -/
def Player.onLand (p : Player) : Player :=
  { p with squashStretch := 13/10, coyoteTimer := COYOTE_TIME }

/-- `Player.updateAnimation(dt)`. -/
def Player.updateAnimation (p : Player) (dt : ℚ) : Player :=
  let p :=
    if p.grounded ∧ |p.vx| > 10 then { p with runTimer := p.runTimer + dt * |p.vx| / 100 }
    else p
  { p with squashStretch := lerp p.squashStretch 1 (10 * dt) }

/-- `Player.update(input, level, dt)`: the per-frame pipeline in source
order — timers, horizontal movement, wall detection, jumping, gravity, Euler
integration, collision resolution, landing edge, facing, animation. -/
def Player.update (p : Player) (input : Input) (level : Level) (dt : ℚ) : Player :=
  let wasGrounded := p.grounded
  let p := p.updateTimers dt
  let p := p.handleHorizontalMovement input dt
  let p := p.handleWallDetection input level
  let p := p.handleJumping input
  let p := p.applyGravity dt
  let p := { p with x := p.x + p.vx * dt, y := p.y + p.vy * dt }
  let p := p.resolveCollisions level
  let p := if p.grounded ∧ ¬ wasGrounded then p.onLand else p
  let p :=
    if p.vx > 10 then { p with facingRight := true }
    else if p.vx < -10 then { p with facingRight := false }
    else p
  p.updateAnimation dt

/-! ### Level loading (level.js) -/

/-- A JSON sub-object `{x, y}`; absent fields are `none` (JS `undefined`). -/
structure SpawnData where
  x : Option ℚ
  y : Option ℚ
  deriving DecidableEq

/-- A JSON sub-object `{x, y, width, height}`. -/
structure RectData where
  x : Option ℚ
  y : Option ℚ
  width : Option ℚ
  height : Option ℚ
  deriving DecidableEq

/-- The parsed shape of a level JSON document (the value `JSON.parse` hands
to `loadLevel`); `none` is an absent field. -/
structure LevelData where
  name : Option String
  par_time : Option ℚ
  width : Option ℤ
  height : Option ℤ
  tiles : Option (List (List ℕ))
  spawn : Option SpawnData
  goal : Option RectData
  hazards : Option (List RectData)
  background_color : Option (List ℚ)
  deriving DecidableEq

/-- JS `v || d` for a possibly-absent number: absent and `0` are falsy. -/
def jsNumOr (v : Option ℚ) (d : ℚ) : ℚ :=
  match v with
  | none => d
  | some x => if x = 0 then d else x

/-- JS `v || d` for a possibly-absent integer. -/
def jsIntOr (v : Option ℤ) (d : ℤ) : ℤ :=
  match v with
  | none => d
  | some x => if x = 0 then d else x

/-- The default-constructed `Level` (the `Level` class constructor). -/
def Level.init : Level :=
  { width := 0, height := 0, tiles := [], hazards := [],
    spawnX := 0, spawnY := 0,
    goalRect := { x := 0, y := 0, width := 0, height := 0 },
    name := "Unnamed Level", parTime := 30,
    backgroundColor := (25, 25, 40) }

/-- Copy one parsed tile row into the flat array: cells up to
`min (row.length) width` at row `y`. -/
def writeTileRow (width : ℕ) (y : ℕ) (row : List ℕ) (tiles : List ℕ) : List ℕ :=
  (row.take width).enum.foldl (fun ts xv => ts.set (y * width + xv.1) xv.2) tiles

/-- `loadLevel(jsonString)` of level.js, modelled from the point where
`JSON.parse` has succeeded (the `catch` branch returns `null` and is handled
by the caller; no claim depends on it). Field defaulting follows JS `||`
truthiness exactly. -/
def loadLevel (data : LevelData) : Level :=
  let level := Level.init
  let level := { level with
    name := data.name.getD "Unnamed Level",
    parTime := jsNumOr data.par_time 30,
    width := jsIntOr data.width 40,
    height := jsIntOr data.height 23 }
  let tileCount := (level.width * level.height).toNat
  let base := List.replicate tileCount TileType.EMPTY
  let tiles :=
    match data.tiles with
    | some rows =>
        (rows.take level.height.toNat).enum.foldl
          (fun ts yr => writeTileRow level.width.toNat yr.1 yr.2 ts) base
    | none => base
  let level := { level with tiles := tiles }
  let level :=
    match data.spawn with
    | some s =>
        { level with spawnX := jsNumOr s.x 2 * TILE_SIZE + TILE_SIZE / 2,
                     spawnY := jsNumOr s.y 2 * TILE_SIZE + TILE_SIZE / 2 }
    | none =>
        { level with spawnX := 2 * TILE_SIZE + TILE_SIZE / 2,
                     spawnY := 2 * TILE_SIZE + TILE_SIZE / 2 }
  let level :=
    match data.goal with
    | some goal =>
        { level with goalRect :=
            { x := jsNumOr goal.x 38 * TILE_SIZE,
              y := jsNumOr goal.y 20 * TILE_SIZE,
              width := jsNumOr goal.width 2 * TILE_SIZE,
              height := jsNumOr goal.height 2 * TILE_SIZE } }
    | none => level
  let level :=
    match data.hazards with
    | some hs =>
        { level with hazards := hs.map (fun h =>
            { x := jsNumOr h.x 0 * TILE_SIZE,
              y := jsNumOr h.y 0 * TILE_SIZE,
              width := jsNumOr h.width 1 * TILE_SIZE,
              height := jsNumOr h.height 1 * TILE_SIZE }) }
    | none => level
  match data.background_color with
  | some c =>
      if c.length ≥ 3 then
        { level with backgroundColor := (c.getD 0 0, c.getD 1 0, c.getD 2 0) }
      else level
  | none => level

/-! ### Game session (game.js)

`Math.random()` is modelled as an opaque stream `Env.rand` consumed left to
right with an explicit cursor `k`; `Math.cos(angle)`/`Math.sin(angle)` of the
random burst angle `2π·r` are modelled as opaque functions of the raw draw
`r`.  `std.loadFile` plus the nested `loadLevel` of `updateLevelComplete` is
modelled by `Env.levelJson n` for the file `levelN.json`: `none` = file
missing, `some none` = file present but JSON unparseable, `some (some d)` =
parsed contents `d`. -/

structure Env where
  rand : ℕ → ℚ
  cosTurn : ℚ → ℚ
  sinTurn : ℚ → ℚ
  levelJson : ℕ → Option (Option LevelData)

/-- The session states (`GameState` in game.js). -/
inductive GameState where
  | MENU
  | PLAYING
  | PAUSED
  | DEAD
  | LEVEL_COMPLETE
  deriving DecidableEq

def FOLLOW_SPEED : ℚ := 8

def LOOK_AHEAD : ℚ := 50

/-- The `Camera` class state. -/
structure Camera where
  x : ℚ
  y : ℚ
  targetX : ℚ
  targetY : ℚ
  zoom : ℚ
  shakeAmount : ℚ
  shakeTimer : ℚ
  deriving DecidableEq

def Camera.init : Camera :=
  { x := 0, y := 0, targetX := 0, targetY := 0, zoom := 1,
    shakeAmount := 0, shakeTimer := 0 }

/-- `Camera.update(player, dt)`: smoothed follow with look-ahead, then the
random shake while `shakeTimer > 0` (two `Math.random()` draws). -/
def Camera.update (cam : Camera) (env : Env) (player : Player) (dt : ℚ) (k : ℕ) :
    Camera × ℕ :=
  let lookAhead := if player.facingRight then LOOK_AHEAD else -LOOK_AHEAD
  let cam := { cam with targetX := player.x + lookAhead, targetY := player.y }
  let cam := { cam with x := cam.x + (cam.targetX - cam.x) * FOLLOW_SPEED * dt,
                        y := cam.y + (cam.targetY - cam.y) * FOLLOW_SPEED * dt }
  if cam.shakeTimer > 0 then
    let shakeX := (env.rand k * 2 - 1) * cam.shakeAmount
    let shakeY := (env.rand (k + 1) * 2 - 1) * cam.shakeAmount
    ({ cam with shakeTimer := cam.shakeTimer - dt,
                x := cam.x + shakeX, y := cam.y + shakeY,
                shakeAmount := cam.shakeAmount * (9/10) }, k + 2)
  else (cam, k)

/-- The `Particle` class state. -/
structure Particle where
  x : ℚ
  y : ℚ
  vx : ℚ
  vy : ℚ
  life : ℚ
  maxLife : ℚ
  size : ℚ
  r : ℚ
  g : ℚ
  b : ℚ
  a : ℤ
  deriving DecidableEq

/-- The `Particle` constructor: four `Math.random()` draws for burst angle,
speed, lifetime and size; the trigonometry on the angle is abstracted by
`Env.cosTurn`/`Env.sinTurn` applied to the raw angle draw. -/
def Particle.create (env : Env) (x y : ℚ) (k : ℕ) : Particle × ℕ :=
  let rAngle := env.rand k
  let speed := 100 + env.rand (k + 1) * 200
  let life := 3/10 + env.rand (k + 2) * (1/2)
  let size := 3 + env.rand (k + 3) * 5
  ({ x := x, y := y,
     vx := env.cosTurn rAngle * speed, vy := env.sinTurn rAngle * speed,
     life := life, maxLife := life, size := size,
     r := 230, g := 50, b := 25, a := 255 }, k + 4)

/-- `Particle.update(dt)`: `none` when the particle dies this frame,
otherwise the advanced particle (mutation + `true` in the source). -/
def Particle.step (p : Particle) (dt : ℚ) : Option Particle :=
  let life := p.life - dt
  if life ≤ 0 then none
  else
    let vy := p.vy + 500 * dt
    some { p with life := life, vy := vy,
                  x := p.x + p.vx * dt, y := p.y + vy * dt,
                  a := ⌊life / p.maxLife * 255⌋ }

def DEATH_RESPAWN_TIME : ℚ := 1/2

/-- The `Game` class state. The source initialises `level` to `null` and
always assigns a real level before entering `PLAYING`; we carry a `Level`
value directly (all claims operate with a level installed). -/
structure Game where
  state : GameState
  player : Player
  level : Level
  currentLevelIndex : ℕ
  levelTime : ℚ
  deathCount : ℕ
  totalTime : ℚ
  deathTimer : ℚ
  camera : Camera
  particles : List Particle
  deriving DecidableEq

/-- The `Game` constructor (with `Level.init` standing in for `null`). -/
def Game.init : Game :=
  { state := GameState.MENU, player := Player.reset, level := Level.init,
    currentLevelIndex := 0, levelTime := 0, deathCount := 0, totalTime := 0,
    deathTimer := 0, camera := Camera.init, particles := [] }

/-- `Game.getPlayerRect()`. -/
def Game.getPlayerRect (gm : Game) : Rect :=
  { x := gm.player.x - gm.player.width / 2,
    y := gm.player.y - gm.player.height / 2,
    width := gm.player.width, height := gm.player.height }

/-- `Game.rectsOverlap(a, b)`: strict half-open AABB overlap. -/
def rectsOverlap (a b : Rect) : Bool :=
  decide (a.x < b.x + b.width) && decide (a.x + a.width > b.x) &&
  decide (a.y < b.y + b.height) && decide (a.y + a.height > b.y)

/-- `Game.checkHazardCollision()`: any hazard overlap, or fallen more than
100 world units below the level. -/
def Game.checkHazardCollision (gm : Game) : Bool :=
  let playerRect := gm.getPlayerRect
  gm.level.hazards.any (fun h => rectsOverlap playerRect h) ||
    decide (gm.player.y > (gm.level.height : ℚ) * TILE_SIZE + 100)

/-- `Game.checkGoalCollision()`. -/
def Game.checkGoalCollision (gm : Game) : Bool :=
  rectsOverlap gm.getPlayerRect gm.level.goalRect

/-- `Game.spawnPlayer()`: reset the player, place it at the level spawn
point, and snap the camera to it. -/
def Game.spawnPlayer (gm : Game) : Game :=
  let player := { Player.reset with
    x := gm.level.spawnX, y := gm.level.spawnY,
    width := PLAYER_WIDTH, height := PLAYER_HEIGHT, facingRight := true }
  { gm with player := player,
            camera := { gm.camera with x := player.x, y := player.y,
                                       targetX := player.x, targetY := player.y } }

/-- One `particles.push(new Particle(x, y))` of the spawn loop: append the
particle created from the next four draws and advance the cursor. -/
def pushParticle (env : Env) (x y : ℚ) (acc : List Particle × ℕ) : List Particle × ℕ :=
  let c := Particle.create env x y acc.2
  (acc.1 ++ [c.1], c.2)

/-- `Game.spawnDeathParticles(x, y)`: push 20 fresh particles. -/
def Game.spawnDeathParticles (gm : Game) (env : Env) (x y : ℚ) (k : ℕ) : Game × ℕ :=
  let acc := (List.range 20).foldl (fun a _ => pushParticle env x y a) (gm.particles, k)
  ({ gm with particles := acc.1 }, acc.2)

/-- `Game.killPlayer()`: enter DEAD, bump the death count, arm the respawn
timer, burst particles at the player, shake the camera. -/
def Game.killPlayer (gm : Game) (env : Env) (k : ℕ) : Game × ℕ :=
  let gm := { gm with state := GameState.DEAD, deathCount := gm.deathCount + 1,
                      deathTimer := DEATH_RESPAWN_TIME }
  let r := gm.spawnDeathParticles env gm.player.x gm.player.y k
  ({ r.1 with camera := { r.1.camera with shakeAmount := 5, shakeTimer := 3/10 } }, r.2)

/-- `Game.completeLevel()`. -/
def Game.completeLevel (gm : Game) : Game :=
  { gm with state := GameState.LEVEL_COMPLETE }

/-- `Game.updateMenu(input)`. -/
def Game.updateMenu (gm : Game) (inp : Input) : Game :=
  if inp.jumpPressed ∨ inp.startPressed then
    { gm.spawnPlayer with state := GameState.PLAYING }
  else gm

/-- `Game.updatePlaying(input, dt)`: pause gate, player physics, hazard
check (kills and returns), goal check (completes and returns), then camera
and timers. -/
def Game.updatePlaying (gm : Game) (env : Env) (inp : Input) (dt : ℚ) (k : ℕ) :
    Game × ℕ :=
  if inp.pausePressed then ({ gm with state := GameState.PAUSED }, k)
  else
    let gm := { gm with player := gm.player.update inp gm.level dt }
    if gm.checkHazardCollision then gm.killPlayer env k
    else if gm.checkGoalCollision then (gm.completeLevel, k)
    else
      let r := gm.camera.update env gm.player dt k
      ({ gm with camera := r.1,
                 levelTime := gm.levelTime + dt,
                 totalTime := gm.totalTime + dt }, r.2)

/-- `Game.updateDead(dt)`. -/
def Game.updateDead (gm : Game) (dt : ℚ) : Game :=
  let gm := { gm with deathTimer := gm.deathTimer - dt }
  if gm.deathTimer ≤ 0 then { gm.spawnPlayer with state := GameState.PLAYING }
  else gm

/-- `Game.updateLevelComplete(input)`: on jump/start, advance the level
index, try the next level file (wrapping to `level1.json` when missing,
keeping the current level when loading fails), respawn and restart the
clock. -/
def Game.updateLevelComplete (gm : Game) (env : Env) (inp : Input) : Game :=
  if inp.jumpPressed ∨ inp.startPressed then
    let gm := { gm with currentLevelIndex := gm.currentLevelIndex + 1 }
    let gm :=
      match env.levelJson (gm.currentLevelIndex + 1) with
      | some (some d) => { gm with level := loadLevel d }
      | some none => gm
      | none =>
          let gm := { gm with currentLevelIndex := 0 }
          match env.levelJson 1 with
          | some (some d) => { gm with level := loadLevel d }
          | _ => gm
    let gm := gm.spawnPlayer
    { gm with levelTime := 0, state := GameState.PLAYING }
  else gm

/-- `Game.updateParticles(dt)`: the filter-with-mutation idiom of the
source is a `filterMap`. -/
def Game.updateParticles (gm : Game) (dt : ℚ) : Game :=
  { gm with particles := gm.particles.filterMap (fun p => p.step dt) }

/-- `Game.update(input, dt)`: dispatch on the session state, then always
update particles. -/
def Game.update (gm : Game) (env : Env) (inp : Input) (dt : ℚ) (k : ℕ) : Game × ℕ :=
  let r :=
    match gm.state with
    | GameState.MENU => (gm.updateMenu inp, k)
    | GameState.PLAYING => gm.updatePlaying env inp dt k
    | GameState.DEAD => (gm.updateDead dt, k)
    | GameState.LEVEL_COMPLETE => (gm.updateLevelComplete env inp, k)
    | GameState.PAUSED =>
        (if inp.pausePressed then { gm with state := GameState.PLAYING } else gm, k)
  (r.1.updateParticles dt, r.2)

/-! ## Claims -/

/-! ### C2 — boundary policies of the two tile queries -/

/-- A 2×2 all-empty level used to probe the boundary queries. -/
def c2Level : Level :=
  { Level.init with
    width := 2, height := 2, tiles := [0, 0, 0, 0] }

/-- C2, counterexample: the claim quantifies over all integer coordinates,
but at `(x, y) = (-1, -1)` the horizontal check fires first, so `getTile`
returns Solid (not Empty as the y<0 clause claims), and at `(x, y) = (-1, 2)`
(`y ≥ height`) `isSolidTile` returns true (not false). -/
theorem C2_counterexample :
    ¬ (getTile c2Level (-1) (-1) = TileType.EMPTY) ∧
    ¬ (isSolidTile c2Level (-1) 2 = false) := by decide

/-- C2 (amended): for x out of horizontal bounds both queries report Solid
for every y; the vertical clauses hold only for in-bounds x — then y<0 gives
`isSolidTile = true` with `getTile = Empty`, and y ≥ height (with 0 ≤ y)
gives `isSolidTile = false` with `getTile = Empty`. -/
theorem C2_boundary_queries (level : Level) (x y : ℤ) :
    ((x < 0 ∨ level.width ≤ x) →
      isSolidTile level x y = true ∧ getTile level x y = TileType.SOLID) ∧
    (0 ≤ x → x < level.width → y < 0 →
      isSolidTile level x y = true ∧ getTile level x y = TileType.EMPTY) ∧
    (0 ≤ x → x < level.width → 0 ≤ y → level.height ≤ y →
      isSolidTile level x y = false ∧ getTile level x y = TileType.EMPTY) := by
  unfold isSolidTile getTile
  refine ⟨?_, ?_, ?_⟩ <;> intros <;> split_ifs <;> simp_all <;> omega

/-- C2 witness: the amended theorem applied to the probe level at one point
in each boundary regime. -/
theorem C2_boundary_queries_witness :
    (isSolidTile c2Level (-1) 0 = true ∧ getTile c2Level (-1) 0 = TileType.SOLID) ∧
    (isSolidTile c2Level 0 (-1) = true ∧ getTile c2Level 0 (-1) = TileType.EMPTY) ∧
    (isSolidTile c2Level 0 5 = false ∧ getTile c2Level 0 5 = TileType.EMPTY) :=
  ⟨(C2_boundary_queries c2Level (-1) 0).1 (Or.inl (by decide)),
   (C2_boundary_queries c2Level 0 (-1)).2.1 (by decide) (by decide) (by decide),
   (C2_boundary_queries c2Level 0 5).2.2 (by decide) (by decide) (by decide) (by decide)⟩

/-! ### C3 — wall-slide gravity clamp -/

/-- A wall-sliding player exactly at the slide-speed ceiling. -/
def c3SlidePlayer : Player :=
  { Player.reset with wallSliding := true, vy := 80 }

/-- C3, counterexample: at `vy = 80` (at the ceiling) the source takes the
reduced-gravity branch, so one `applyGravity` call with `dt = 1/60` leaves
`vy = 86 > 80` — the claimed "clamped exactly with no overshoot, vy at most
80 after the call" fails. -/
theorem C3_counterexample :
    WALL_SLIDE_SPEED < (c3SlidePlayer.applyGravity (1/60)).vy := by
  norm_num [c3SlidePlayer, Player.applyGravity, Player.reset, WALL_SLIDE_SPEED,
    GRAVITY, MAX_FALL_SPEED, FAST_FALL_MULT]

/-- C3 (amended): while wall-sliding, a `vy` strictly above the ceiling is
set exactly to the ceiling; a `vy` at or below it receives reduced gravity
`360·dt` (and only the terminal clamp at 600 applies), so `vy` may overshoot
the slide ceiling within the same call. -/
theorem C3_wall_slide_gravity (p : Player) (dt : ℚ) (hs : p.wallSliding = true) :
    (WALL_SLIDE_SPEED < p.vy → (p.applyGravity dt).vy = WALL_SLIDE_SPEED) ∧
    (p.vy ≤ WALL_SLIDE_SPEED →
      (p.applyGravity dt).vy = min (p.vy + 360 * dt) MAX_FALL_SPEED) := by
  unfold Player.applyGravity
  simp only [hs, if_true]
  constructor
  · intro h
    rw [if_pos h]
    norm_num [WALL_SLIDE_SPEED, MAX_FALL_SPEED]
  · intro h
    rw [if_neg (not_lt.mpr h)]
    have h360 : p.vy + GRAVITY * (3/10) * dt = p.vy + 360 * dt := by
      norm_num [GRAVITY]
    simp only [h360]
    rcases le_or_lt (p.vy + 360 * dt) MAX_FALL_SPEED with hle | hgt
    · rw [if_neg (not_lt.mpr hle), min_eq_left hle]
    · rw [if_pos hgt, min_eq_right hgt.le]

/-- A wall-sliding player above the ceiling. -/
def c3FastPlayer : Player :=
  { Player.reset with wallSliding := true, vy := 100 }

/-- A wall-sliding player below the ceiling. -/
def c3SlowPlayer : Player :=
  { Player.reset with wallSliding := true, vy := 50 }

/-- C3 witness: both branches of the amended theorem at concrete states. -/
theorem C3_wall_slide_gravity_witness :
    (c3FastPlayer.applyGravity (1/60)).vy = WALL_SLIDE_SPEED ∧
    (c3SlowPlayer.applyGravity (1/60)).vy =
      min (c3SlowPlayer.vy + 360 * (1/60)) MAX_FALL_SPEED :=
  ⟨(C3_wall_slide_gravity c3FastPlayer (1/60) rfl).1
     (by norm_num [c3FastPlayer, Player.reset, WALL_SLIDE_SPEED]),
   (C3_wall_slide_gravity c3SlowPlayer (1/60) rfl).2
     (by norm_num [c3SlowPlayer, Player.reset, WALL_SLIDE_SPEED])⟩

/-! ### C4 — countdown timers -/

/-- A player whose coyote timer is about to expire. -/
def c4TimerPlayer : Player :=
  { Player.reset with coyoteTimer := 1/20 }

/-- C4, counterexample: with `coyoteTimer = 0.05` and `dt = 0.1`,
`updateTimers` leaves the timer at `-0.05`: it is negative, and differs from
the claimed `max(0, previous - dt) = 0` — the source decrements a positive
timer without flooring it at zero. -/
theorem C4_counterexample :
    (c4TimerPlayer.updateTimers (1/10)).coyoteTimer < 0 ∧
    (c4TimerPlayer.updateTimers (1/10)).coyoteTimer ≠
      max 0 (c4TimerPlayer.coyoteTimer - 1/10) := by
  norm_num [c4TimerPlayer, Player.updateTimers, Player.reset]

/-- C4 (amended): each countdown timer is decremented by `dt` exactly when
it is currently positive and left unchanged otherwise; the result is not
floored and may be negative. -/
theorem C4_timer_step (p : Player) (dt : ℚ) :
    (p.updateTimers dt).coyoteTimer =
      (if 0 < p.coyoteTimer then p.coyoteTimer - dt else p.coyoteTimer) ∧
    (p.updateTimers dt).jumpBufferTimer =
      (if 0 < p.jumpBufferTimer then p.jumpBufferTimer - dt else p.jumpBufferTimer) ∧
    (p.updateTimers dt).wallJumpCooldown =
      (if 0 < p.wallJumpCooldown then p.wallJumpCooldown - dt else p.wallJumpCooldown) := by
  unfold Player.updateTimers
  dsimp only
  split_ifs <;> simp_all

/-! ### C5 — variable jump cut -/

/-- C5: releasing jump (`jumpHeld = false`, with no simultaneous buffered
launch) while `canVariableJump` is armed and `vy < 0` multiplies `vy` by the
cut factor exactly once and disarms the flag; any further frame without a
fresh press leaves `vy` untouched by the variable-jump rule. -/
theorem C5_variable_jump_cut (p : Player) (input : Input)
    (hjp : input.jumpPressed = false) (hjh : input.jumpHeld = false)
    (hbuf : p.jumpBufferTimer ≤ 0) (hflag : p.canVariableJump = true)
    (hvy : p.vy < 0) :
    (p.handleJumping input).vy = p.vy * JUMP_CUT_MULT ∧
    (p.handleJumping input).canVariableJump = false ∧
    ∀ input2 : Input, input2.jumpPressed = false →
      ((p.handleJumping input).handleJumping input2).vy =
        (p.handleJumping input).vy := by
  have h1 : ¬ (p.jumpBufferTimer > 0) := not_lt.mpr hbuf
  have hq : p.handleJumping input =
      { p with jumpHeld := false, vy := p.vy * JUMP_CUT_MULT, canVariableJump := false } := by
    unfold Player.handleJumping
    simp [hjp, hjh, hflag, hvy, h1]
  refine ⟨by rw [hq], by rw [hq], ?_⟩
  intro input2 h2
  rw [hq]
  unfold Player.handleJumping
  simp [h2, h1]

/-- A rising player with the variable-jump flag armed. -/
def c5CutPlayer : Player :=
  { Player.reset with canVariableJump := true, vy := -200 }

/-- A frame with jump fully released and nothing pressed. -/
def c5ReleaseInput : Input :=
  { moveX := 0, moveY := 0, jumpPressed := false, jumpHeld := false,
    pausePressed := false, startPressed := false }

/-- C5 witness: the cut fires once at a concrete state and the second
release leaves `vy` unchanged. -/
theorem C5_variable_jump_cut_witness :
    (c5CutPlayer.handleJumping c5ReleaseInput).vy = c5CutPlayer.vy * JUMP_CUT_MULT ∧
    (c5CutPlayer.handleJumping c5ReleaseInput).canVariableJump = false ∧
    ((c5CutPlayer.handleJumping c5ReleaseInput).handleJumping c5ReleaseInput).vy =
      (c5CutPlayer.handleJumping c5ReleaseInput).vy := by
  obtain ⟨h1, h2, h3⟩ := C5_variable_jump_cut c5CutPlayer c5ReleaseInput rfl rfl
    (by norm_num [c5CutPlayer, Player.reset]) rfl
    (by norm_num [c5CutPlayer, Player.reset])
  exact ⟨h1, h2, h3 c5ReleaseInput rfl⟩

/-! ### C6 — wall jump -/

/-- C6: from a wall-sliding state, a buffered or fresh jump request (with
the button held, so the variable-jump cut does not fire in the same frame)
performs the wall jump: `vx = -wallDirection·320`, `vy = -380`, wall-sliding
cleared, cooldown armed to 0.15, `canVariableJump` armed, the jump buffer
consumed to zero, and facing flipped away from the wall. -/
theorem C6_wall_jump_transition (p : Player) (input : Input)
    (hws : p.wallSliding = true)
    (hdir : p.wallDirection = 1 ∨ p.wallDirection = -1)
    (hreq : input.jumpPressed = true ∨ 0 < p.jumpBufferTimer)
    (hheld : input.jumpHeld = true) :
    (p.handleJumping input).vx = -(p.wallDirection : ℚ) * WALL_JUMP_FORCE_X ∧
    (p.handleJumping input).vy = -WALL_JUMP_FORCE_Y ∧
    (p.handleJumping input).wallSliding = false ∧
    (p.handleJumping input).wallJumpCooldown = WALL_JUMP_COOLDOWN ∧
    (p.handleJumping input).canVariableJump = true ∧
    (p.handleJumping input).jumpBufferTimer = 0 ∧
    (p.handleJumping input).facingRight = decide (p.wallDirection < 0) := by
  unfold Player.handleJumping Player.wallJump
  rcases hreq with h | h
  · norm_num [h, hws, hheld, JUMP_BUFFER_TIME]
  · cases hp : input.jumpPressed
    · norm_num [hp, hws, hheld, h]
    · norm_num [hp, hws, hheld, JUMP_BUFFER_TIME]

/-- A player sliding on a wall to its right. -/
def c6SlidePlayer : Player :=
  { Player.reset with wallSliding := true, wallDirection := 1 }

/-- A frame pressing and holding jump toward the wall. -/
def c6JumpInput : Input :=
  { moveX := 1, moveY := 0, jumpPressed := true, jumpHeld := true,
    pausePressed := false, startPressed := false }

/-- C6 witness: the wall-jump transition at a concrete sliding state. -/
theorem C6_wall_jump_transition_witness :
    (c6SlidePlayer.handleJumping c6JumpInput).vx =
      -(c6SlidePlayer.wallDirection : ℚ) * WALL_JUMP_FORCE_X ∧
    (c6SlidePlayer.handleJumping c6JumpInput).vy = -WALL_JUMP_FORCE_Y ∧
    (c6SlidePlayer.handleJumping c6JumpInput).wallSliding = false ∧
    (c6SlidePlayer.handleJumping c6JumpInput).wallJumpCooldown = WALL_JUMP_COOLDOWN ∧
    (c6SlidePlayer.handleJumping c6JumpInput).canVariableJump = true ∧
    (c6SlidePlayer.handleJumping c6JumpInput).jumpBufferTimer = 0 ∧
    (c6SlidePlayer.handleJumping c6JumpInput).facingRight =
      decide (c6SlidePlayer.wallDirection < 0) :=
  C6_wall_jump_transition c6SlidePlayer c6JumpInput rfl (Or.inl rfl) (Or.inl rfl) rfl

/-! ### C9 — spawn-point conversion -/

/-- A level file declaring `spawn: {x: 3, y: 19}`. -/
def c9Data : LevelData :=
  { name := none, par_time := none, width := some 40, height := some 23,
    tiles := none, spawn := some { x := some 3, y := some 19 },
    goal := none, hazards := none, background_color := none }

/-- C9, counterexample: the conversion `tile·16 + 8` of spawn `(3, 19)`
yields world `(56, 312)`, so the claimed world position `(52, 308)` is wrong
both for the loaded level and for the spawned player. -/
theorem C9_counterexample :
    (loadLevel c9Data).spawnX ≠ 52 ∧ (loadLevel c9Data).spawnY ≠ 308 ∧
    ({ Game.init with level := loadLevel c9Data } : Game).spawnPlayer.player.x ≠ 52 ∧
    ({ Game.init with level := loadLevel c9Data } : Game).spawnPlayer.player.y ≠ 308 := by
  norm_num [c9Data, loadLevel, Level.init, jsNumOr, jsIntOr, TILE_SIZE,
    Game.spawnPlayer, Game.init, Player.reset]

/-- C9 (amended): a level whose JSON declares spawn `{x: 3, y: 19}` converts
it by `tile·TILE_SIZE + TILE_SIZE/2`, i.e. to world `(56, 312)`, and spawning
the player places it at `(56, 312)`. -/
theorem C9_spawn_conversion (data : LevelData) (gm : Game)
    (h : data.spawn = some { x := some 3, y := some 19 }) :
    (loadLevel data).spawnX = 3 * TILE_SIZE + TILE_SIZE / 2 ∧
    (loadLevel data).spawnY = 19 * TILE_SIZE + TILE_SIZE / 2 ∧
    (loadLevel data).spawnX = 56 ∧ (loadLevel data).spawnY = 312 ∧
    ({ gm with level := loadLevel data } : Game).spawnPlayer.player.x = 56 ∧
    ({ gm with level := loadLevel data } : Game).spawnPlayer.player.y = 312 := by
  have hx : (loadLevel data).spawnX = 56 ∧ (loadLevel data).spawnY = 312 := by
    unfold loadLevel
    rw [h]
    cases data.goal <;> cases data.hazards <;> cases data.background_color <;>
      norm_num [jsNumOr, TILE_SIZE] <;> split_ifs <;> norm_num
  refine ⟨by rw [hx.1]; norm_num [TILE_SIZE], by rw [hx.2]; norm_num [TILE_SIZE],
          hx.1, hx.2, ?_, ?_⟩ <;>
    simp [Game.spawnPlayer, hx.1, hx.2]

/-- C9 witness: the amended theorem at the concrete level file. -/
theorem C9_spawn_conversion_witness :
    (loadLevel c9Data).spawnX = 3 * TILE_SIZE + TILE_SIZE / 2 ∧
    (loadLevel c9Data).spawnY = 19 * TILE_SIZE + TILE_SIZE / 2 ∧
    (loadLevel c9Data).spawnX = 56 ∧ (loadLevel c9Data).spawnY = 312 ∧
    ({ Game.init with level := loadLevel c9Data } : Game).spawnPlayer.player.x = 56 ∧
    ({ Game.init with level := loadLevel c9Data } : Game).spawnPlayer.player.y = 312 :=
  C9_spawn_conversion c9Data Game.init rfl

/-! ### C1 — landing invariant of the collision resolver -/

/-- Whether the resolver's loop body for tile `tc` takes the upward vertical
branch (solid tile, vertical axis selected, negative signed push). Because
the source captures the AABB bounds in `const`s before the loop, this is a
function of the frozen bounds only, independent of the shifts accumulated by
earlier iterations. -/
def resolvesUp (level : Level) (left right top bottom : ℚ) (tc : ℤ × ℤ) : Bool :=
  isSolidTile level tc.2 tc.1 &&
    (let tileX := (tc.2 : ℚ) * TILE_SIZE
     let tileY := (tc.1 : ℚ) * TILE_SIZE
     let overlapLeft := right - tileX
     let overlapRight := tileX + TILE_SIZE - left
     let overlapTop := bottom - tileY
     let overlapBottom := tileY + TILE_SIZE - top
     let minOverlapX := if overlapLeft < overlapRight then -overlapLeft else overlapRight
     let minOverlapY := if overlapTop < overlapBottom then -overlapTop else overlapBottom
     !decide (|minOverlapX| < |minOverlapY|) && decide (minOverlapY < 0))

/-- No loop iteration can undo a landing: once `grounded`, the full coyote
window and `vy = 0` hold, every later tile's resolution preserves all
three. -/
theorem resolveTileStep_keeps_landing (level : Level) (l r t b : ℚ) (p : Player)
    (tc : ℤ × ℤ) (h : p.grounded = true ∧ p.coyoteTimer = COYOTE_TIME ∧ p.vy = 0) :
    (resolveTileStep level l r t b p tc).grounded = true ∧
    (resolveTileStep level l r t b p tc).coyoteTimer = COYOTE_TIME ∧
    (resolveTileStep level l r t b p tc).vy = 0 := by
  unfold resolveTileStep
  dsimp only
  split_ifs <;> simp_all

/-- An iteration that takes the upward vertical branch establishes the
landing state, whatever the incoming state was. -/
theorem resolveTileStep_lands (level : Level) (l r t b : ℚ) (p : Player)
    (tc : ℤ × ℤ) (h : resolvesUp level l r t b tc = true) :
    (resolveTileStep level l r t b p tc).grounded = true ∧
    (resolveTileStep level l r t b p tc).coyoteTimer = COYOTE_TIME ∧
    (resolveTileStep level l r t b p tc).vy = 0 := by
  unfold resolvesUp at h
  unfold resolveTileStep
  dsimp only at h ⊢
  simp only [Bool.and_eq_true, Bool.not_eq_true', decide_eq_true_eq,
    decide_eq_false_iff_not] at h
  obtain ⟨hsolid, hax, hneg⟩ := h
  rw [if_neg (by simp [hsolid]), if_neg hax, if_pos hneg]
  exact ⟨rfl, rfl, rfl⟩

/-- The loop preserves the landing state over any remaining tile list. -/
theorem foldl_resolve_keeps_landing (level : Level) (l r t b : ℚ)
    (tcs : List (ℤ × ℤ)) (p : Player)
    (h : p.grounded = true ∧ p.coyoteTimer = COYOTE_TIME ∧ p.vy = 0) :
    ((tcs.foldl (resolveTileStep level l r t b) p).grounded = true ∧
     (tcs.foldl (resolveTileStep level l r t b) p).coyoteTimer = COYOTE_TIME ∧
     (tcs.foldl (resolveTileStep level l r t b) p).vy = 0) := by
  induction tcs generalizing p with
  | nil => simpa using h
  | cons hd tl ih =>
      rw [List.foldl_cons]
      exact ih _ (resolveTileStep_keeps_landing level l r t b p hd h)

/-- C1: after one `resolveCollisions` pass, if any spanned tile's vertical
penetration resolves upward (negative signed vertical push), then `vy` is
zero, `grounded` is true and `coyoteTimer` equals the full coyote window
`0.08` exactly. -/
theorem C1_landing_invariant (level : Level) (p : Player) (tc : ℤ × ℤ)
    (hmem : tc ∈ p.scanTiles)
    (hup : resolvesUp level (p.x - p.width / 2) (p.x + p.width / 2)
             (p.y - p.height / 2) (p.y + p.height / 2) tc = true) :
    (p.resolveCollisions level).vy = 0 ∧
    (p.resolveCollisions level).grounded = true ∧
    (p.resolveCollisions level).coyoteTimer = COYOTE_TIME := by
  obtain ⟨l1, l2, hsplit⟩ := List.append_of_mem hmem
  unfold Player.resolveCollisions
  dsimp only
  rw [hsplit, List.foldl_append, List.foldl_cons]
  have hland := resolveTileStep_lands level (p.x - p.width / 2) (p.x + p.width / 2)
    (p.y - p.height / 2) (p.y + p.height / 2)
    (l1.foldl (resolveTileStep level (p.x - p.width / 2) (p.x + p.width / 2)
      (p.y - p.height / 2) (p.y + p.height / 2)) { p with grounded := false }) tc hup
  have hkeep := foldl_resolve_keeps_landing level (p.x - p.width / 2)
    (p.x + p.width / 2) (p.y - p.height / 2) (p.y + p.height / 2) l2 _ hland
  exact ⟨hkeep.2.2, hkeep.1, hkeep.2.1⟩

/-- A 4×4 level whose only solid tile is at tile coordinates `(1, 2)`. -/
def c1Level : Level :=
  { Level.init with
    width := 4, height := 4,
    tiles := [0, 0, 0, 0, 0, 0, 0, 0, 0, 1, 0, 0, 0, 0, 0, 0] }

/-- A player overlapping the top edge of that solid tile by 2 world units. -/
def c1Player : Player := { Player.reset with x := 24, y := 26 }

/-- C1 witness: the landing invariant at the concrete overlap. -/
theorem C1_landing_invariant_witness :
    (c1Player.resolveCollisions c1Level).vy = 0 ∧
    (c1Player.resolveCollisions c1Level).grounded = true ∧
    (c1Player.resolveCollisions c1Level).coyoteTimer = COYOTE_TIME :=
  C1_landing_invariant c1Level c1Player (2, 1)
    (by
      have hscan : c1Player.scanTiles = [(1, 1), (1, 2), (2, 1), (2, 2)] := by
        unfold Player.scanTiles c1Player
        norm_num [Player.reset, PLAYER_WIDTH, PLAYER_HEIGHT, TILE_SIZE]
        decide
      rw [hscan]
      decide)
    (by
      norm_num [resolvesUp, c1Level, c1Player, Player.reset, Level.init, isSolidTile,
        TILE_SIZE, TileType.SOLID, PLAYER_WIDTH, PLAYER_HEIGHT]
      decide)

/-! ### Session-level machinery shared by C7, C8 and C10 -/

/-- The player state `Game.spawnPlayer` installs at spawn point `(sx, sy)`. -/
def spawnedAt (sx sy : ℚ) : Player :=
  { Player.reset with
    x := sx, y := sy, width := PLAYER_WIDTH, height := PLAYER_HEIGHT,
    facingRight := true }

/-- The pose a freshly spawned player reaches after one zero-input frame
(only gravity acts: it falls by `1200·dt²`); used to phrase which tile cells
the first frame's resolver scans. -/
def fallProbe (sx sy dt : ℚ) : Player :=
  { Player.reset with x := sx, y := sy + 1200 * (dt * dt) }

/-- `scanTiles` depends only on the AABB pose. -/
theorem scanTiles_congr (p q : Player) (hx : p.x = q.x) (hy : p.y = q.y)
    (hw : p.width = q.width) (hh : p.height = q.height) :
    p.scanTiles = q.scanTiles := by
  unfold Player.scanTiles
  rw [hx, hy, hw, hh]

/-- Folding the resolver body over tiles that are all non-solid changes
nothing. -/
theorem foldl_resolve_clear (level : Level) (l r t b : ℚ)
    (tcs : List (ℤ × ℤ)) (q : Player)
    (h : ∀ tc ∈ tcs, isSolidTile level tc.2 tc.1 = false) :
    tcs.foldl (resolveTileStep level l r t b) q = q := by
  induction tcs generalizing q with
  | nil => rfl
  | cons hd tl ih =>
      rw [List.foldl_cons]
      have hstep : resolveTileStep level l r t b q hd = q := by
        unfold resolveTileStep
        rw [if_pos (by simp [h hd (List.mem_cons_self hd tl)])]
      rw [hstep]
      exact ih q (fun tc htc => h tc (List.mem_cons_of_mem hd htc))

/-- When no spanned tile is solid, `resolveCollisions` only clears
`grounded`. -/
theorem resolveCollisions_clear (level : Level) (p : Player)
    (h : ∀ tc ∈ p.scanTiles, isSolidTile level tc.2 tc.1 = false) :
    p.resolveCollisions level = { p with grounded := false } := by
  unfold Player.resolveCollisions
  exact foldl_resolve_clear level _ _ _ _ p.scanTiles { p with grounded := false } h

/-- The full frame pipeline on a freshly spawned player under zero
horizontal input, no jump press, a sane `dt`, and no solid tile in the
fallen pose's scan region: the player stays at `x = sx` and falls to
`y = sy + 1200·dt²`. -/
theorem spawned_update_pose (level : Level) (inp : Input) (dt : ℚ) (sx sy : ℚ)
    (hmx : inp.moveX = 0) (hjp : inp.jumpPressed = false)
    (hdt : 0 < dt) (hdt2 : dt ≤ 1/10)
    (hclear : ∀ tc ∈ (fallProbe sx sy dt).scanTiles,
        isSolidTile level tc.2 tc.1 = false) :
    ((spawnedAt sx sy).update inp level dt).x = sx ∧
    ((spawnedAt sx sy).update inp level dt).y = sy + 1200 * (dt * dt) ∧
    ((spawnedAt sx sy).update inp level dt).width = PLAYER_WIDTH ∧
    ((spawnedAt sx sy).update inp level dt).height = PLAYER_HEIGHT := by
  have h0 : spawnedAt sx sy =
      ⟨sx, sy, 16, 16, 0, 0, false, false, 0, true, false, false, 0, 0, 0, 0, 1⟩ := by
    unfold spawnedAt Player.reset PLAYER_WIDTH PLAYER_HEIGHT
    rfl
  have h1 : (⟨sx, sy, 16, 16, 0, 0, false, false, 0, true, false, false, 0, 0, 0, 0, 1⟩ :
      Player).updateTimers dt =
      ⟨sx, sy, 16, 16, 0, 0, false, false, 0, true, false, false, 0, 0, 0, 0, 1⟩ := by
    unfold Player.updateTimers
    norm_num
  have h2 : (⟨sx, sy, 16, 16, 0, 0, false, false, 0, true, false, false, 0, 0, 0, 0, 1⟩ :
      Player).handleHorizontalMovement inp dt =
      ⟨sx, sy, 16, 16, 0, 0, false, false, 0, true, false, false, 0, 0, 0, 0, 1⟩ := by
    unfold Player.handleHorizontalMovement
    simp [hmx]
  have h3 : (⟨sx, sy, 16, 16, 0, 0, false, false, 0, true, false, false, 0, 0, 0, 0, 1⟩ :
      Player).handleWallDetection inp level =
      ⟨sx, sy, 16, 16, 0, 0, false, false, 0, true, false, false, 0, 0, 0, 0, 1⟩ := by
    unfold Player.handleWallDetection
    norm_num [hmx]
  have h4 : (⟨sx, sy, 16, 16, 0, 0, false, false, 0, true, false, false, 0, 0, 0, 0, 1⟩ :
      Player).handleJumping inp =
      ⟨sx, sy, 16, 16, 0, 0, false, false, 0, true, inp.jumpHeld, false, 0, 0, 0, 0, 1⟩ := by
    unfold Player.handleJumping
    norm_num [hjp]
  have h5 : (⟨sx, sy, 16, 16, 0, 0, false, false, 0, true, inp.jumpHeld, false,
      0, 0, 0, 0, 1⟩ : Player).applyGravity dt =
      ⟨sx, sy, 16, 16, 0, 1200 * dt, false, false, 0, true, inp.jumpHeld, false,
        0, 0, 0, 0, 1⟩ := by
    unfold Player.applyGravity
    have hcl : ¬ ((0 : ℚ) + GRAVITY * dt > MAX_FALL_SPEED) := by
      norm_num [GRAVITY, MAX_FALL_SPEED]
      linarith
    norm_num [GRAVITY] at hcl ⊢
    intro hlt
    linarith
  have hres : (⟨sx + 0 * dt, sy + 1200 * dt * dt, 16, 16, 0, 1200 * dt, false, false, 0,
      true, inp.jumpHeld, false, 0, 0, 0, 0, 1⟩ : Player).resolveCollisions level =
      ⟨sx + 0 * dt, sy + 1200 * dt * dt, 16, 16, 0, 1200 * dt, false, false, 0,
        true, inp.jumpHeld, false, 0, 0, 0, 0, 1⟩ := by
    have hscanEq : (⟨sx + 0 * dt, sy + 1200 * dt * dt, 16, 16, 0, 1200 * dt, false, false,
        0, true, inp.jumpHeld, false, 0, 0, 0, 0, 1⟩ : Player).scanTiles =
        (fallProbe sx sy dt).scanTiles := by
      refine scanTiles_congr _ _ ?_ ?_ ?_ ?_ <;>
        simp [fallProbe, Player.reset, PLAYER_WIDTH, PLAYER_HEIGHT] <;> ring_nf
    rw [resolveCollisions_clear level _ (by rw [hscanEq]; exact hclear)]
  simp only [Player.update, h0, h1, h2, h3, h4, h5]
  simp only [hres]
  norm_num [Player.updateAnimation, PLAYER_WIDTH, PLAYER_HEIGHT, mul_assoc]

/-- The spawn burst appends exactly `idxs.length` particles, each built by
`Particle.create` at some cursor. -/
theorem pushParticle_fold (env : Env) (x y : ℚ) (idxs : List ℕ)
    (l0 : List Particle) (k0 : ℕ) :
    (idxs.foldl (fun a _ => pushParticle env x y a) (l0, k0)).1.length =
      l0.length + idxs.length ∧
    ∀ p ∈ (idxs.foldl (fun a _ => pushParticle env x y a) (l0, k0)).1,
      p ∈ l0 ∨ ∃ j, p = (Particle.create env x y j).1 := by
  induction idxs generalizing l0 k0 with
  | nil => exact ⟨by simp, fun p hp => Or.inl hp⟩
  | cons i is ih =>
      rw [List.foldl_cons]
      have hstep : pushParticle env x y (l0, k0) =
          (l0 ++ [(Particle.create env x y k0).1], (Particle.create env x y k0).2) := rfl
      rw [hstep]
      obtain ⟨hlen, hmem⟩ :=
        ih (l0 ++ [(Particle.create env x y k0).1]) (Particle.create env x y k0).2
      refine ⟨by rw [hlen]; simp; omega, ?_⟩
      intro p hp
      rcases hmem p hp with hin | ⟨j, hj⟩
      · rcases List.mem_append.mp hin with h | h
        · exact Or.inl h
        · exact Or.inr ⟨k0, List.mem_singleton.mp h⟩
      · exact Or.inr ⟨j, hj⟩

/-- The lifetime a fresh particle is created with. -/
theorem create_life (env : Env) (x y : ℚ) (j : ℕ) :
    (Particle.create env x y j).1.life = 3/10 + env.rand (j + 2) * (1/2) := rfl

/-- A particle update step that does not expire keeps the particle, so the
per-frame filter preserves the count when every lifetime exceeds `dt`. -/
theorem filterMap_step_length (dt : ℚ) (ps : List Particle)
    (h : ∀ p ∈ ps, dt < p.life) :
    (ps.filterMap (fun p => p.step dt)).length = ps.length := by
  induction ps with
  | nil => rfl
  | cons q qs ih =>
      rw [List.filterMap_cons]
      have hcond : ¬ (q.life - dt ≤ 0) := by
        have := h q (List.mem_cons_self q qs)
        intro hc
        linarith
      have hq : q.step dt ≠ none := by
        unfold Particle.step
        rw [if_neg hcond]
        simp
      rcases Option.ne_none_iff_exists.mp hq with ⟨q2, hq2⟩
      rw [← hq2]
      simp only [List.length_cons]
      rw [ih (fun p hp => h p (List.mem_cons_of_mem q hp))]

/-- A zero-intent frame: no movement, nothing pressed or held. -/
def zeroInput : Input :=
  { moveX := 0, moveY := 0, jumpPressed := false, jumpHeld := false,
    pausePressed := false, startPressed := false }

/-- A degenerate environment: every random draw is 0, the trigonometric
samples are the unit vector, no level files exist. -/
def zeroEnv : Env :=
  { rand := fun _ => 0, cosTurn := fun _ => 1, sinTurn := fun _ => 0,
    levelJson := fun _ => none }

/-- The scan region of the first zero-input frame from spawn `(24, 24)` at
`dt = 1/60`. -/
theorem probe_scan_24 :
    (fallProbe 24 24 (1/60)).scanTiles = [(1, 1), (1, 2), (2, 1), (2, 2)] := by
  unfold Player.scanTiles fallProbe
  norm_num [Player.reset, PLAYER_WIDTH, PLAYER_HEIGHT, TILE_SIZE]
  decide

/-! ### C10 — hazard check takes priority over the goal check -/

/-- C10: during Playing (pause not pressed), when the updated player's AABB
overlaps both some hazard and the goal, the frame kills the player: the
session enters Dead with the death count incremented, never LevelComplete —
the hazard check runs first and returns. -/
theorem C10_hazard_priority (gm : Game) (env : Env) (inp : Input) (dt : ℚ) (k : ℕ)
    (hstate : gm.state = GameState.PLAYING)
    (hpause : inp.pausePressed = false)
    (hhaz : ({ gm with player := gm.player.update inp gm.level dt } :
        Game).checkHazardCollision = true)
    (hgoal : ({ gm with player := gm.player.update inp gm.level dt } :
        Game).checkGoalCollision = true) :
    (gm.update env inp dt k).1.state = GameState.DEAD ∧
    (gm.update env inp dt k).1.deathCount = gm.deathCount + 1 ∧
    (gm.update env inp dt k).1.state ≠ GameState.LEVEL_COMPLETE := by
  unfold Game.update Game.updatePlaying
  rw [hstate] at hhaz ⊢
  dsimp only
  rw [hpause]
  rw [hhaz]
  simp [Game.killPlayer, Game.spawnDeathParticles, Game.updateParticles]

/-! ### C8 — goal completes the level and freezes the clock -/

/-- C8: during Playing (pause not pressed), when the updated player's AABB
overlaps the goal and no hazard fires, the frame transitions
Playing→LevelComplete without advancing `levelTime`; and on every further
frame that stays in LevelComplete, `levelTime` is unchanged (it only
advances inside the Playing branch). -/
theorem C8_goal_completion (gm : Game) (env : Env) (inp : Input) (dt : ℚ) (k : ℕ)
    (hstate : gm.state = GameState.PLAYING)
    (hpause : inp.pausePressed = false)
    (hhaz : ({ gm with player := gm.player.update inp gm.level dt } :
        Game).checkHazardCollision = false)
    (hgoal : ({ gm with player := gm.player.update inp gm.level dt } :
        Game).checkGoalCollision = true) :
    (gm.update env inp dt k).1.state = GameState.LEVEL_COMPLETE ∧
    (gm.update env inp dt k).1.levelTime = gm.levelTime ∧
    (∀ (gm2 : Game) (env2 : Env) (inp2 : Input) (dt2 : ℚ) (k2 : ℕ),
      gm2.state = GameState.LEVEL_COMPLETE →
      (gm2.update env2 inp2 dt2 k2).1.state = GameState.LEVEL_COMPLETE →
      (gm2.update env2 inp2 dt2 k2).1.levelTime = gm2.levelTime) := by
  refine ⟨?_, ?_, ?_⟩
  · unfold Game.update Game.updatePlaying
    rw [hstate] at hhaz hgoal ⊢
    dsimp only
    rw [hpause]
    rw [hhaz, hgoal]
    simp [Game.completeLevel, Game.updateParticles]
  · unfold Game.update Game.updatePlaying
    rw [hstate] at hhaz hgoal ⊢
    dsimp only
    rw [hpause]
    rw [hhaz, hgoal]
    simp [Game.completeLevel, Game.updateParticles]
  · intro gm2 env2 inp2 dt2 k2 h2 hstay
    unfold Game.update at hstay ⊢
    rw [h2] at hstay ⊢
    dsimp only at hstay ⊢
    unfold Game.updateLevelComplete at hstay ⊢
    by_cases hcase : (inp2.jumpPressed = true ∨ inp2.startPressed = true)
    · rw [if_pos hcase] at hstay
      simp [Game.updateParticles] at hstay
    · rw [if_neg hcase]
      simp [Game.updateParticles]

/-! ### C7 — hazard covering the spawn kills on the first frame -/

/-- C7: in Playing with a freshly spawned player, empty particle list and a
zero death count, if some hazard rectangle fully contains the player's spawn
rectangle (half-extents 8), the input is neutral, `0 < dt ≤ 0.1` (the main
loop's dt cap), every random draw is nonnegative, and the spawn area's scan
region is free of solid tiles, then the first `Game.update` transitions
Playing→Dead, sets the death count to 1, and leaves exactly 20 particles:
the burst is spawned and no particle can die on the spawning frame because
the minimum particle lifetime 0.3 exceeds the dt cap. -/
theorem C7_death_on_spawn_hazard
    (gm : Game) (env : Env) (inp : Input) (dt : ℚ) (k : ℕ) (hz : Rect)
    (hrand : ∀ i, 0 ≤ env.rand i)
    (hstate : gm.state = GameState.PLAYING)
    (hplayer : gm.player = spawnedAt gm.level.spawnX gm.level.spawnY)
    (hparts : gm.particles = [])
    (hdeaths : gm.deathCount = 0)
    (hmx : inp.moveX = 0) (hjp : inp.jumpPressed = false) (hpp : inp.pausePressed = false)
    (hdt : 0 < dt) (hdt2 : dt ≤ 1/10)
    (hhz : hz ∈ gm.level.hazards)
    (hc1 : hz.x ≤ gm.level.spawnX - 8) (hc2 : gm.level.spawnX + 8 ≤ hz.x + hz.width)
    (hc3 : hz.y ≤ gm.level.spawnY - 8) (hc4 : gm.level.spawnY + 8 ≤ hz.y + hz.height)
    (hclear : ∀ tc ∈ (fallProbe gm.level.spawnX gm.level.spawnY dt).scanTiles,
        isSolidTile gm.level tc.2 tc.1 = false) :
    (gm.update env inp dt k).1.state = GameState.DEAD ∧
    (gm.update env inp dt k).1.deathCount = 1 ∧
    (gm.update env inp dt k).1.particles.length = 20 := by
  obtain ⟨hpx, hpy, hpw, hph⟩ := spawned_update_pose gm.level inp dt
    gm.level.spawnX gm.level.spawnY hmx hjp hdt hdt2 hclear
  have hdtsq : 1200 * (dt * dt) < 16 := by nlinarith
  have hsq0 : (0:ℚ) ≤ 1200 * (dt * dt) := by positivity
  have hhazT : ({ gm with player := gm.player.update inp gm.level dt } :
      Game).checkHazardCollision = true := by
    simp only [Game.checkHazardCollision, Game.getPlayerRect, hplayer]
    rw [Bool.or_eq_true]
    left
    apply List.any_eq_true.mpr
    refine ⟨hz, hhz, ?_⟩
    simp only [rectsOverlap, Bool.and_eq_true, decide_eq_true_eq]
    rw [hpx, hpy, hpw, hph]
    simp only [PLAYER_WIDTH, PLAYER_HEIGHT]
    refine ⟨⟨⟨by linarith, by linarith⟩, by linarith⟩, by linarith⟩
  unfold Game.update Game.updatePlaying
  rw [hstate] at hhazT ⊢
  dsimp only
  rw [hpp]
  rw [hhazT]
  simp only [Game.killPlayer, Game.spawnDeathParticles, Game.updateParticles,
    Bool.false_eq_true, if_false, if_true]
  refine ⟨by simp, by simp [hdeaths], ?_⟩
  dsimp only
  refine (filterMap_step_length dt _ ?_).trans ?_
  · intro p hp
    rcases (pushParticle_fold env _ _ (List.range 20) _ _).2 p hp with hin | ⟨j, hj⟩
    · rw [hparts] at hin
      cases hin
    · rw [hj, create_life]
      have h0 := hrand (j + 2)
      have : (0:ℚ) ≤ env.rand (j + 2) * (1/2) := by positivity
      linarith
  · rw [(pushParticle_fold env _ _ (List.range 20) _ _).1]
    simp [hparts]

/-! ### Concrete witnesses for the session claims -/

/-- 4×4 all-empty level with spawn `(24, 24)` and a hazard fully containing
the spawn rectangle `[16,32]×[16,32]`. -/
def c7Level : Level :=
  { Level.init with
    width := 4, height := 4,
    tiles := [0, 0, 0, 0, 0, 0, 0, 0, 0, 0, 0, 0, 0, 0, 0, 0],
    spawnX := 24, spawnY := 24,
    hazards := [{ x := 8, y := 8, width := 32, height := 32 }] }

/-- A Playing session on `c7Level` with a freshly spawned player. -/
def c7Game : Game :=
  { Game.init with
    state := GameState.PLAYING, level := c7Level,
    player := spawnedAt 24 24 }

/-- C7 witness: the first frame of the concrete session dies on the hazard
with death count 1 and exactly 20 particles. -/
theorem C7_death_on_spawn_hazard_witness :
    (c7Game.update zeroEnv zeroInput (1/60) 0).1.state = GameState.DEAD ∧
    (c7Game.update zeroEnv zeroInput (1/60) 0).1.deathCount = 1 ∧
    (c7Game.update zeroEnv zeroInput (1/60) 0).1.particles.length = 20 := by
  have hclear : ∀ tc ∈ (fallProbe c7Game.level.spawnX c7Game.level.spawnY (1/60)).scanTiles,
      isSolidTile c7Game.level tc.2 tc.1 = false := by
    intro tc htc
    have h24x : c7Game.level.spawnX = 24 := rfl
    have h24y : c7Game.level.spawnY = 24 := rfl
    rw [h24x, h24y, probe_scan_24] at htc
    fin_cases htc <;> decide
  exact C7_death_on_spawn_hazard c7Game zeroEnv zeroInput (1/60) 0
    { x := 8, y := 8, width := 32, height := 32 }
    (fun i => le_refl 0) rfl rfl rfl rfl rfl rfl rfl (by norm_num) (by norm_num)
    (List.mem_singleton.mpr rfl)
    (by norm_num [c7Game, c7Level]) (by norm_num [c7Game, c7Level])
    (by norm_num [c7Game, c7Level]) (by norm_num [c7Game, c7Level])
    hclear

/-- Like `c7Level` but with the goal rectangle coinciding with the hazard,
so the first frame overlaps both. -/
def c10Level : Level :=
  { Level.init with
    width := 4, height := 4,
    tiles := [0, 0, 0, 0, 0, 0, 0, 0, 0, 0, 0, 0, 0, 0, 0, 0],
    spawnX := 24, spawnY := 24,
    hazards := [{ x := 8, y := 8, width := 32, height := 32 }],
    goalRect := { x := 8, y := 8, width := 32, height := 32 } }

/-- A Playing session on `c10Level` with a freshly spawned player. -/
def c10Game : Game :=
  { Game.init with
    state := GameState.PLAYING, level := c10Level,
    player := spawnedAt 24 24 }

/-- C10 witness: overlapping hazard and goal simultaneously, the session
dies rather than completing. -/
theorem C10_hazard_priority_witness :
    (c10Game.update zeroEnv zeroInput (1/60) 0).1.state = GameState.DEAD ∧
    (c10Game.update zeroEnv zeroInput (1/60) 0).1.deathCount = c10Game.deathCount + 1 ∧
    (c10Game.update zeroEnv zeroInput (1/60) 0).1.state ≠ GameState.LEVEL_COMPLETE := by
  have hclear : ∀ tc ∈ (fallProbe (24:ℚ) 24 (1/60)).scanTiles,
      isSolidTile c10Level tc.2 tc.1 = false := by
    intro tc htc
    rw [probe_scan_24] at htc
    fin_cases htc <;> decide
  obtain ⟨hpx, hpy, hpw, hph⟩ := spawned_update_pose c10Level zeroInput (1/60) 24 24 rfl rfl
    (by norm_num) (by norm_num) hclear
  have hpl : c10Game.player = spawnedAt 24 24 := rfl
  have hlv : c10Game.level = c10Level := rfl
  have hhaz : ({ c10Game with player := c10Game.player.update zeroInput c10Game.level (1/60) } :
      Game).checkHazardCollision = true := by
    simp only [Game.checkHazardCollision, Game.getPlayerRect, hpl, hlv]
    rw [Bool.or_eq_true]
    left
    apply List.any_eq_true.mpr
    refine ⟨{ x := 8, y := 8, width := 32, height := 32 }, by simp [c10Level], ?_⟩
    simp only [rectsOverlap, Bool.and_eq_true, decide_eq_true_eq]
    rw [hpx, hpy, hpw, hph]
    norm_num [PLAYER_WIDTH, PLAYER_HEIGHT]
  have hgoal : ({ c10Game with player := c10Game.player.update zeroInput c10Game.level (1/60) } :
      Game).checkGoalCollision = true := by
    simp only [Game.checkGoalCollision, Game.getPlayerRect, hpl, hlv]
    have hg : c10Level.goalRect = { x := 8, y := 8, width := 32, height := 32 } := rfl
    rw [hg]
    simp only [rectsOverlap, Bool.and_eq_true, decide_eq_true_eq]
    rw [hpx, hpy, hpw, hph]
    norm_num [PLAYER_WIDTH, PLAYER_HEIGHT]
  exact C10_hazard_priority c10Game zeroEnv zeroInput (1/60) 0 rfl rfl hhaz hgoal

/-- 4×4 all-empty level with spawn `(24, 24)`, no hazards, and a goal
rectangle containing the spawn. -/
def c8Level : Level :=
  { Level.init with
    width := 4, height := 4,
    tiles := [0, 0, 0, 0, 0, 0, 0, 0, 0, 0, 0, 0, 0, 0, 0, 0],
    spawnX := 24, spawnY := 24,
    goalRect := { x := 8, y := 8, width := 32, height := 32 } }

/-- A Playing session on `c8Level` with a freshly spawned player. -/
def c8Game : Game :=
  { Game.init with
    state := GameState.PLAYING, level := c8Level,
    player := spawnedAt 24 24 }

/-- A session already in LevelComplete with a nonzero clock. -/
def c8Done : Game :=
  { Game.init with state := GameState.LEVEL_COMPLETE, levelTime := 7 }

/-- C8 witness: the concrete session completes the level without advancing
the clock, and a LevelComplete session that stays put keeps its clock. -/
theorem C8_goal_completion_witness :
    (c8Game.update zeroEnv zeroInput (1/60) 0).1.state = GameState.LEVEL_COMPLETE ∧
    (c8Game.update zeroEnv zeroInput (1/60) 0).1.levelTime = c8Game.levelTime ∧
    (c8Done.update zeroEnv zeroInput (1/60) 0).1.levelTime = c8Done.levelTime := by
  have hclear : ∀ tc ∈ (fallProbe (24:ℚ) 24 (1/60)).scanTiles,
      isSolidTile c8Level tc.2 tc.1 = false := by
    intro tc htc
    rw [probe_scan_24] at htc
    fin_cases htc <;> decide
  obtain ⟨hpx, hpy, hpw, hph⟩ := spawned_update_pose c8Level zeroInput (1/60) 24 24 rfl rfl
    (by norm_num) (by norm_num) hclear
  have hpl : c8Game.player = spawnedAt 24 24 := rfl
  have hlv : c8Game.level = c8Level := rfl
  have hhaz : ({ c8Game with player := c8Game.player.update zeroInput c8Game.level (1/60) } :
      Game).checkHazardCollision = false := by
    simp only [Game.checkHazardCollision, Game.getPlayerRect, hpl, hlv]
    have hz : c8Level.hazards = [] := rfl
    rw [hz]
    simp only [List.any_nil, Bool.false_or]
    rw [decide_eq_false_iff_not]
    rw [hpy]
    norm_num [c8Level, TILE_SIZE]
  have hgoal : ({ c8Game with player := c8Game.player.update zeroInput c8Game.level (1/60) } :
      Game).checkGoalCollision = true := by
    simp only [Game.checkGoalCollision, Game.getPlayerRect, hpl, hlv]
    have hg : c8Level.goalRect = { x := 8, y := 8, width := 32, height := 32 } := rfl
    rw [hg]
    simp only [rectsOverlap, Bool.and_eq_true, decide_eq_true_eq]
    rw [hpx, hpy, hpw, hph]
    norm_num [PLAYER_WIDTH, PLAYER_HEIGHT]
  obtain ⟨h1, h2, h3⟩ := C8_goal_completion c8Game zeroEnv zeroInput (1/60) 0 rfl rfl hhaz hgoal
  exact ⟨h1, h2, h3 c8Done zeroEnv zeroInput (1/60) 0 rfl rfl⟩

end Meatboy
